import Mathlib

/-!
Verification development for the uro0 compiler pipeline (lexer, parser,
IR lowering, x86-64 code generator).  Each Python module is shallowly
embedded as executable Lean definitions; Python exceptions become
explicit error values and the mutually recursive descent is expressed
with an explicit fuel parameter (the Python recursion has no fuel, so
every claim about concrete inputs is evaluated with ample fuel and
general claims are stated for every sufficient fuel value).
-/

/-! ### Ordered dictionaries (Python `dict` semantics: insertion order kept,
updating an existing key keeps its position, a new key is appended). -/

def dget {α : Type} (d : List (String × α)) (k : String) : Option α :=
  match d with
  | [] => none
  | (k', v) :: rest => if k' == k then some v else dget rest k

def dset {α : Type} (d : List (String × α)) (k : String) (v : α) : List (String × α) :=
  match d with
  | [] => [(k, v)]
  | (k', v') :: rest => if k' == k then (k, v) :: rest else (k', v') :: dset rest k v

theorem dget_dset {α : Type} (d : List (String × α)) (k : String) (v : α) :
    dget (dset d k v) k = some v := by
  induction d with
  | nil => simp [dget, dset]
  | cons hd tl ih =>
    obtain ⟨k', v'⟩ := hd
    by_cases h : k' == k
    · simp [dget, dset, h]
    · simp [dget, dset, h, ih]

/-! ### tokens.py -/

def TOKEN_WHITESPACE : String := "token_whitespace"
def TOKEN_COMMENT : String := "token_comment"
def TOKEN_KEYWORD : String := "token_keyword"
def TOKEN_NUMBER : String := "token_number"
def TOKEN_STRING : String := "token_string"
def TOKEN_IDENTIFIER : String := "token_identifier"
def TOKEN_LBRACKET : String := "token_lbracket"
def TOKEN_RBRACKET : String := "token_rbracket"
def TOKEN_LCURLYBRACKET : String := "token_lcurlybracket"
def TOKEN_RCURLYBRACKET : String := "token_rcurlybracket"
def TOKEN_LSTRAIGHTBRACKET : String := "token_lstraightbracket"
def TOKEN_RSTRAIGHTBRACKET : String := "token_rstraightbracket"
def TOKEN_PERIOD : String := "token_period"
def TOKEN_COMMA : String := "token_comma"
def TOKEN_EQUAL : String := "token_equal"
def TOKEN_GREATERTHAN : String := "token_greaterthan"
def TOKEN_LESSTHAN : String := "token_lessthan"
def TOKEN_ASSIGN : String := "token_assign"
def TOKEN_COLON : String := "token_colon"
def TOKEN_SEMICOLON : String := "token_semicolon"
def TOKEN_MINUS : String := "token_minus"
def TOKEN_PLUS : String := "token_plus"
def TOKEN_ASTERISK : String := "token_asterisk"
def TOKEN_UNKNOWN : String := "token_unknown"
def TOKEN_EOF : String := "$"

def KEYWORDS : List String :=
  ["fn", "for", "import", "in", "return", "True", "False", "extern", "free"]

structure Token where
  type : String
  value : String
  line : Nat
deriving Repr, DecidableEq

/-! ### lexer.py.  Each regular expression of `PATTERNS` is embedded as a
prefix matcher returning the matched characters (Python `re.match`). -/

def isSpaceCh (c : Char) : Bool :=
  c == ' ' || c == '\t' || c == '\n' || c == '\r' || c == '\x0b' || c == '\x0c'

def matchPlus (p : Char → Bool) (cs : List Char) : Option (List Char) :=
  let v := cs.takeWhile p
  if v.length > 0 then some v else none

def matchComment (cs : List Char) : Option (List Char) :=
  match cs with
  | '#' :: _ => some cs
  | _ => none

def matchQuoted (q : Char) (cs : List Char) : Option (List Char) :=
  match cs with
  | c :: rest =>
    if c == q then
      let body := rest.takeWhile (fun c2 => c2 != q)
      if body.length < rest.length then some (q :: (body ++ [q])) else none
    else none
  | [] => none

def matchIdent (cs : List Char) : Option (List Char) :=
  match cs with
  | c :: rest =>
    if c.isAlpha || c == '_' then
      some (c :: rest.takeWhile (fun d => d.isAlpha || d == '_' || d.isDigit))
    else none
  | [] => none

def matchLit (pat : List Char) (cs : List Char) : Option (List Char) :=
  if cs.take pat.length == pat then some pat else none

def PATTERNS : List ((List Char → Option (List Char)) × String) :=
  [ (matchPlus isSpaceCh, TOKEN_WHITESPACE),
    (matchPlus Char.isDigit, TOKEN_NUMBER),
    (matchComment, TOKEN_COMMENT),
    (matchQuoted '\'', TOKEN_STRING),
    (matchQuoted '"', TOKEN_STRING),
    (matchIdent, TOKEN_IDENTIFIER),
    (matchLit ['('], TOKEN_LBRACKET),
    (matchLit [')'], TOKEN_RBRACKET),
    (matchLit ['{'], TOKEN_LCURLYBRACKET),
    (matchLit ['}'], TOKEN_RCURLYBRACKET),
    (matchLit ['['], TOKEN_LSTRAIGHTBRACKET),
    (matchLit [']'], TOKEN_RSTRAIGHTBRACKET),
    (matchLit ['.'], TOKEN_PERIOD),
    (matchLit [','], TOKEN_COMMA),
    (matchLit ['=', '='], TOKEN_EQUAL),
    (matchLit ['>'], TOKEN_GREATERTHAN),
    (matchLit ['<'], TOKEN_LESSTHAN),
    (matchLit ['='], TOKEN_ASSIGN),
    (matchLit [':'], TOKEN_COLON),
    (matchLit [';'], TOKEN_SEMICOLON),
    (matchLit ['-'], TOKEN_MINUS),
    (matchLit ['+'], TOKEN_PLUS),
    (matchLit ['*'], TOKEN_ASTERISK) ]

def _find_token (cs : List Char) : String × List Char :=
  match PATTERNS.findSome? (fun pr => (pr.1 cs).map (fun v => (pr.2, v))) with
  | some (ty, v) =>
    if KEYWORDS.contains (String.mk v) then (TOKEN_KEYWORD, v) else (ty, v)
  | none => (TOKEN_UNKNOWN, cs)

def lexLine : Nat → Nat → List Char → List Token
  | _, _, [] => []
  | 0, _, _ => []
  | fuel + 1, ln, cs =>
    let r := _find_token cs
    let rest := cs.drop r.2.length
    let tl := lexLine fuel ln rest
    if r.1 == TOKEN_WHITESPACE || r.1 == TOKEN_COMMENT then tl
    else ⟨r.1, String.mk r.2, ln⟩ :: tl

/-- `code.split("\\n")` (structurally, on the character list). -/
def splitLines : List Char → List (List Char)
  | [] => [[]]
  | c :: rest =>
    match splitLines rest with
    | [] => [[]]
    | line :: more =>
      if c == '\n' then [] :: line :: more else (c :: line) :: more

def tokenize (code : String) : List Token :=
  (((splitLines code.data).enum).map
    (fun pr => lexLine (pr.2.length + 1) (pr.1 + 1) pr.2)).flatten

/-! ### ast.py.  A `Node` has a kind tag and a polymorphic payload: a single
token, a list, or another node.  The payload universe is one inductive. -/

def NODE_STATEMENT : String := "node_statement"
def NODE_ASSIGNMENT : String := "node_assignment"
def NODE_IDENTITY : String := "node_identity"
def NODE_KEY : String := "node_key"
def NODE_STRING_LITERAL : String := "node_string_literal"
def NODE_NUMBER_LITERAL : String := "node_number_literal"
def NODE_FUNCTION_CALL : String := "node_function_call"
def NODE_FUNCTION : String := "node_function"
def NODE_ARG : String := "node_arg"
def NODE_BLOCK : String := "node_block"
def NODE_RETURN : String := "node_return"
def NODE_DICTIONARY : String := "node_dictionary"
def NODE_KEY_VALUE : String := "node_key_value"
def NODE_IMPORT : String := "node_import"
def NODE_FOR : String := "node_for"
def NODE_BOOLEAN : String := "node_boolean"
def NODE_COMPARISON : String := "node_comparison"
def NODE_EXTERN : String := "node_extern"
def NODE_FREE : String := "node_free"

inductive Val where
  | tok (t : Token)
  | node (ty : String) (content : Val)
  | list (elems : List Val)
deriving Repr

/-- `Node.__eq__` compares the kind tag with a kind constant; a `Token` in the
same position compares its token type; a bare list never equals a kind. -/
def Val.eqK : Val → String → Bool
  | .node t _, k => t == k
  | .tok t, k => t.type == k
  | .list _, _ => false

/-! ### parser.py -/

inductive PErr where
  | syntaxError (t : Token)
  | unexpectedEOF
  | indexError
  | assertionError
  | outOfFuel
deriving Repr, DecidableEq

/-- `ParseError.__init__` re-raises `UnexpectedEOF` when the offending token
compares equal (by token type) to the end-of-input sentinel. -/
def mkParseError (t : Token) : PErr :=
  if t.type == TOKEN_EOF then .unexpectedEOF else .syntaxError t

abbrev Toks := List Token

def peekT (tokens : Toks) : Except PErr Token :=
  match tokens with
  | [] => .error .indexError
  | t :: _ => .ok t

def popT (tokens : Toks) : Except PErr (Token × Toks) :=
  match tokens with
  | [] => .error .indexError
  | t :: rest => .ok (t, rest)

/-- `tokens[0] in {k1, ..., kn}` (set membership dispatches on token type). -/
def tyIn (t : Token) (tys : List String) : Bool := tys.contains t.type

/-- `tokens[0] == TOKEN_KEYWORD and tokens[0].value in {v1, ..., vn}`. -/
def kwIn (t : Token) (vs : List String) : Bool :=
  t.type == TOKEN_KEYWORD && vs.contains t.value

def FIRST_statements : List String :=
  [TOKEN_IDENTIFIER, TOKEN_STRING, TOKEN_NUMBER, TOKEN_LBRACKET, TOKEN_LCURLYBRACKET]

def KW_statements : List String :=
  ["return", "import", "fn", "for", "True", "False", "extern", "free"]

def FIRST_expression : List String :=
  [TOKEN_STRING, TOKEN_NUMBER, TOKEN_LBRACKET, TOKEN_IDENTIFIER, TOKEN_LCURLYBRACKET]

def KW_expression : List String := ["fn", "True", "False"]

/-- `node.type` of a `Node` (empty for non-nodes, which have no such field). -/
def vtype : Val → String
  | .node t _ => t
  | _ => ""

/-- `node.content` of a `Node`. -/
def contentOf : Val → Val
  | .node _ c => c
  | v => v

/-- A node content used as a Python list. -/
def contentList : Val → List Val
  | .node _ (.list l) => l
  | .list l => l
  | v => [v]

mutual

def parse_program (fuel : Nat) (tokens : Toks) : Except PErr (List Val × Toks) :=
  match fuel with
  | 0 => .error .outOfFuel
  | f + 1 => do
    let t ← peekT tokens
    if tyIn t FIRST_statements || kwIn t KW_statements then
      parse_statements f tokens
    else .error (mkParseError t)

def parse_statements (fuel : Nat) (tokens : Toks) : Except PErr (List Val × Toks) :=
  match fuel with
  | 0 => .error .outOfFuel
  | f + 1 => do
    let t ← peekT tokens
    if tyIn t FIRST_statements || kwIn t KW_statements then do
      let (statement, tokens) ← parse_statement f tokens
      let (semicolon, tokens) ← popT tokens
      if semicolon.type == TOKEN_SEMICOLON then do
        let (statements, tokens) ← parse_statements f tokens
        .ok (Val.node NODE_STATEMENT statement :: statements, tokens)
      else .error (mkParseError semicolon)
    else if tyIn t [TOKEN_EOF, TOKEN_RCURLYBRACKET] then
      .ok ([], tokens)
    else .error (mkParseError t)

def parse_statement (fuel : Nat) (tokens : Toks) : Except PErr (Val × Toks) :=
  match fuel with
  | 0 => .error .outOfFuel
  | f + 1 => do
    let t ← peekT tokens
    if tyIn t [TOKEN_STRING, TOKEN_NUMBER, TOKEN_LBRACKET, TOKEN_IDENTIFIER,
        TOKEN_LCURLYBRACKET] || kwIn t KW_expression then
      parse_expression f tokens
    else if kwIn t ["for"] then
      parse_for f tokens
    else if kwIn t ["return"] then do
      let (_, tokens) ← popT tokens
      parse_return_cont f tokens
    else if kwIn t ["import"] then
      parse_import_stmt f tokens
    else if kwIn t ["free"] then
      parse_free f tokens
    else .error (mkParseError t)

def parse_extern_decl (fuel : Nat) (tokens : Toks) : Except PErr (Val × Toks) :=
  match fuel with
  | 0 => .error .outOfFuel
  | _ + 1 => do
    let t ← peekT tokens
    if kwIn t ["extern"] then do
      let (_, tokens) ← popT tokens
      let (lbracket, tokens) ← popT tokens
      if lbracket.type == TOKEN_LBRACKET then do
        let (string, tokens) ← popT tokens
        if string.type == TOKEN_STRING then do
          let (comma, tokens) ← popT tokens
          -- the source raises `ParseError(string)` here, not `ParseError(comma)`
          if comma.type == TOKEN_COMMA then do
            let (number, tokens) ← popT tokens
            if number.type == TOKEN_NUMBER then do
              let (rbracket, tokens) ← popT tokens
              if rbracket.type == TOKEN_RBRACKET then
                .ok (Val.node NODE_EXTERN (.list [.tok string, .tok number]), tokens)
              else .error (mkParseError rbracket)
            else .error (mkParseError number)
          else .error (mkParseError string)
        else .error (mkParseError string)
      else .error (mkParseError lbracket)
    else .error (mkParseError t)

def parse_free (fuel : Nat) (tokens : Toks) : Except PErr (Val × Toks) :=
  match fuel with
  | 0 => .error .outOfFuel
  | f + 1 => do
    let t ← peekT tokens
    if kwIn t ["free"] then do
      let (_, tokens) ← popT tokens
      let (lbracket, tokens) ← popT tokens
      if lbracket.type == TOKEN_LBRACKET then do
        let (identity, tokens) ← parse_identity f tokens
        let (rbracket, tokens) ← popT tokens
        if rbracket.type == TOKEN_RBRACKET then
          .ok (Val.node NODE_FREE identity, tokens)
        else .error (mkParseError rbracket)
      else .error (mkParseError lbracket)
    else .error (mkParseError t)

def parse_import_stmt (fuel : Nat) (tokens : Toks) : Except PErr (Val × Toks) :=
  match fuel with
  | 0 => .error .outOfFuel
  | _ + 1 => do
    let t ← peekT tokens
    if kwIn t ["import"] then do
      let (_, tokens) ← popT tokens
      let (module, tokens) ← popT tokens
      if module.type == TOKEN_STRING then
        .ok (Val.node NODE_IMPORT (.tok module), tokens)
      else .error (mkParseError module)
    else .error (mkParseError t)

def parse_for (fuel : Nat) (tokens : Toks) : Except PErr (Val × Toks) :=
  match fuel with
  | 0 => .error .outOfFuel
  | f + 1 => do
    let t ← peekT tokens
    if kwIn t ["for"] then do
      let (_, tokens) ← popT tokens
      let (obj, tokens) ← parse_identity f tokens
      let (keyword_in, tokens) ← popT tokens
      if keyword_in.type == TOKEN_KEYWORD && keyword_in.value == "in" then do
        let (iterable, tokens) ← parse_identity f tokens
        let (block, tokens) ← parse_block f tokens
        .ok (Val.node NODE_FOR (.list [obj, iterable, block]), tokens)
      else .error (mkParseError keyword_in)
    else .error (mkParseError t)

def parse_return_cont (fuel : Nat) (tokens : Toks) : Except PErr (Val × Toks) :=
  match fuel with
  | 0 => .error .outOfFuel
  | f + 1 => do
    let t ← peekT tokens
    if tyIn t FIRST_expression || kwIn t KW_expression then do
      let (expression, tokens) ← parse_expression f tokens
      .ok (Val.node NODE_RETURN expression, tokens)
    else if t.type == TOKEN_SEMICOLON then
      .ok (Val.node NODE_RETURN (.list []), tokens)
    else .error (mkParseError t)

def parse_assignment_or_identity_or_function_call (fuel : Nat) (tokens : Toks) :
    Except PErr (Val × Toks) :=
  match fuel with
  | 0 => .error .outOfFuel
  | f + 1 => do
    let t ← peekT tokens
    if t.type == TOKEN_ASSIGN then
      parse_assignment_cont f tokens
    else if tyIn t [TOKEN_LBRACKET, TOKEN_RBRACKET, TOKEN_RSTRAIGHTBRACKET,
        TOKEN_COMMA, TOKEN_SEMICOLON, TOKEN_COLON, TOKEN_RCURLYBRACKET,
        TOKEN_EQUAL, TOKEN_GREATERTHAN, TOKEN_LESSTHAN] then
      parse_identity_or_function_call f tokens
    else .error (mkParseError t)

def parse_assignment_cont (fuel : Nat) (tokens : Toks) : Except PErr (Val × Toks) :=
  match fuel with
  | 0 => .error .outOfFuel
  | f + 1 => do
    let t ← peekT tokens
    if t.type == TOKEN_ASSIGN then do
      let (_, tokens) ← popT tokens
      let (expression, tokens) ← parse_expression f tokens
      .ok (Val.node NODE_ASSIGNMENT (.list [expression]), tokens)
    else .error (mkParseError t)

def parse_identity (fuel : Nat) (tokens : Toks) : Except PErr (Val × Toks) :=
  match fuel with
  | 0 => .error .outOfFuel
  | f + 1 => do
    let t ← peekT tokens
    if t.type == TOKEN_IDENTIFIER then do
      let (identifier, tokens) ← popT tokens
      let (keys, tokens) ← parse_keys f tokens
      .ok (Val.node NODE_IDENTITY (.list [.tok identifier, .list keys]), tokens)
    else .error (mkParseError t)

def parse_keys (fuel : Nat) (tokens : Toks) : Except PErr (List Val × Toks) :=
  match fuel with
  | 0 => .error .outOfFuel
  | f + 1 => do
    let t ← peekT tokens
    if t.type == TOKEN_LSTRAIGHTBRACKET then do
      let (key, tokens) ← parse_key f tokens
      let (keys, tokens) ← parse_keys f tokens
      .ok (Val.node NODE_KEY key :: keys, tokens)
    else if tyIn t [TOKEN_SEMICOLON, TOKEN_ASSIGN, TOKEN_RBRACKET,
        TOKEN_RSTRAIGHTBRACKET, TOKEN_LBRACKET, TOKEN_COMMA, TOKEN_COLON,
        TOKEN_LCURLYBRACKET, TOKEN_RCURLYBRACKET, TOKEN_EQUAL,
        TOKEN_GREATERTHAN, TOKEN_LESSTHAN] || kwIn t ["in"] then
      .ok ([], tokens)
    else .error (mkParseError t)

def parse_key (fuel : Nat) (tokens : Toks) : Except PErr (Val × Toks) :=
  match fuel with
  | 0 => .error .outOfFuel
  | f + 1 => do
    let t ← peekT tokens
    if t.type == TOKEN_LSTRAIGHTBRACKET then do
      let (_, tokens) ← popT tokens
      let (expression, tokens) ← parse_expression f tokens
      let (rstraightbracket, tokens) ← popT tokens
      -- the source uses a bare `assert` here, not `ParseError`
      if rstraightbracket.type == TOKEN_RSTRAIGHTBRACKET then
        .ok (expression, tokens)
      else .error .assertionError
    else .error (mkParseError t)

def parse_expression (fuel : Nat) (tokens : Toks) : Except PErr (Val × Toks) :=
  match fuel with
  | 0 => .error .outOfFuel
  | f + 1 => do
    let t ← peekT tokens
    if t.type == TOKEN_STRING then do
      let (s, tokens) ← popT tokens
      let node := Val.node NODE_STRING_LITERAL (.tok s)
      let (comparison, tokens) ← parse_comparison_cont f tokens
      match comparison with
      | some c => .ok (Val.node NODE_COMPARISON (.list (node :: contentList c)), tokens)
      | none => .ok (node, tokens)
    else if t.type == TOKEN_NUMBER then do
      let (n, tokens) ← popT tokens
      let node := Val.node NODE_NUMBER_LITERAL (.tok n)
      let (comparison, tokens) ← parse_comparison_cont f tokens
      match comparison with
      | some c => .ok (Val.node NODE_COMPARISON (.list (node :: contentList c)), tokens)
      | none => .ok (node, tokens)
    else if t.type == TOKEN_IDENTIFIER then do
      let (identity, tokens) ← parse_identity f tokens
      let (anode, tokens) ← parse_assignment_or_identity_or_function_call f tokens
      let node := Val.node (vtype anode) (.list (contentOf identity :: contentList anode))
      let (comparison, tokens) ← parse_comparison_cont f tokens
      match comparison with
      | some c => .ok (Val.node NODE_COMPARISON (.list (node :: contentList c)), tokens)
      | none => .ok (node, tokens)
    else if t.type == TOKEN_LBRACKET then do
      let (_, tokens) ← popT tokens
      let (expression, tokens) ← parse_expression f tokens
      let (rbracket, tokens) ← popT tokens
      if rbracket.type == TOKEN_RBRACKET then do
        let (comparison, tokens) ← parse_comparison_cont f tokens
        match comparison with
        | some c =>
          .ok (Val.node NODE_COMPARISON (.list (expression :: contentList c)), tokens)
        | none => .ok (expression, tokens)
      else .error (mkParseError rbracket)
    else if kwIn t ["fn"] then do
      let (node, tokens) ← parse_function f tokens
      let (comparison, tokens) ← parse_comparison_cont f tokens
      match comparison with
      | some c => .ok (Val.node NODE_COMPARISON (.list (node :: contentList c)), tokens)
      | none => .ok (node, tokens)
    else if t.type == TOKEN_LCURLYBRACKET then do
      let (node, tokens) ← parse_dictionary f tokens
      let (comparison, tokens) ← parse_comparison_cont f tokens
      match comparison with
      | some c => .ok (Val.node NODE_COMPARISON (.list (node :: contentList c)), tokens)
      | none => .ok (node, tokens)
    else if kwIn t ["True", "False"] then do
      let (node, tokens) ← parse_boolean f tokens
      let (comparison, tokens) ← parse_comparison_cont f tokens
      match comparison with
      | some c => .ok (Val.node NODE_COMPARISON (.list (node :: contentList c)), tokens)
      | none => .ok (node, tokens)
    else if kwIn t ["extern"] then
      parse_extern_decl f tokens
    else .error (mkParseError t)

def parse_identity_or_function_call (fuel : Nat) (tokens : Toks) : Except PErr (Val × Toks) :=
  match fuel with
  | 0 => .error .outOfFuel
  | f + 1 => do
    let t ← peekT tokens
    if t.type == TOKEN_LBRACKET then
      parse_function_call_cont f tokens
    else if tyIn t [TOKEN_ASSIGN, TOKEN_RBRACKET, TOKEN_RSTRAIGHTBRACKET,
        TOKEN_COMMA, TOKEN_SEMICOLON, TOKEN_COLON, TOKEN_RCURLYBRACKET,
        TOKEN_EQUAL, TOKEN_GREATERTHAN, TOKEN_LESSTHAN] then
      parse_identity_cont f tokens
    else .error (mkParseError t)

def parse_identity_cont (fuel : Nat) (tokens : Toks) : Except PErr (Val × Toks) :=
  match fuel with
  | 0 => .error .outOfFuel
  | _ + 1 => do
    let t ← peekT tokens
    if tyIn t [TOKEN_ASSIGN, TOKEN_RBRACKET, TOKEN_RSTRAIGHTBRACKET,
        TOKEN_COMMA, TOKEN_SEMICOLON, TOKEN_COLON, TOKEN_RCURLYBRACKET,
        TOKEN_EQUAL, TOKEN_GREATERTHAN, TOKEN_LESSTHAN] then
      .ok (Val.node NODE_IDENTITY (.list []), tokens)
    else .error (mkParseError t)

def parse_function_call_cont (fuel : Nat) (tokens : Toks) : Except PErr (Val × Toks) :=
  match fuel with
  | 0 => .error .outOfFuel
  | f + 1 => do
    let t ← peekT tokens
    if t.type == TOKEN_LBRACKET then do
      let (_, tokens) ← popT tokens
      let (args, tokens) ← parse_args f tokens
      let (rbracket, tokens) ← popT tokens
      if rbracket.type == TOKEN_RBRACKET then
        .ok (Val.node NODE_FUNCTION_CALL (.list [.list args]), tokens)
      else .error (mkParseError rbracket)
    else .error (mkParseError t)

def parse_args (fuel : Nat) (tokens : Toks) : Except PErr (List Val × Toks) :=
  match fuel with
  | 0 => .error .outOfFuel
  | f + 1 => do
    let t ← peekT tokens
    if tyIn t FIRST_expression || kwIn t KW_expression then do
      let (arg, tokens) ← parse_arg f tokens
      let (later_args, tokens) ← parse_later_args f tokens
      .ok (arg :: later_args, tokens)
    else if t.type == TOKEN_RBRACKET then
      .ok ([], tokens)
    else .error (mkParseError t)

def parse_later_args (fuel : Nat) (tokens : Toks) : Except PErr (List Val × Toks) :=
  match fuel with
  | 0 => .error .outOfFuel
  | f + 1 => do
    let t ← peekT tokens
    if t.type == TOKEN_COMMA then do
      let (_, tokens) ← popT tokens
      parse_args f tokens
    else if t.type == TOKEN_RBRACKET then
      .ok ([], tokens)
    else .error (mkParseError t)

def parse_arg (fuel : Nat) (tokens : Toks) : Except PErr (Val × Toks) :=
  match fuel with
  | 0 => .error .outOfFuel
  | f + 1 => do
    let t ← peekT tokens
    if tyIn t FIRST_expression || kwIn t KW_expression then do
      let (arg, tokens) ← parse_expression f tokens
      .ok (Val.node NODE_ARG arg, tokens)
    else .error (mkParseError t)

def parse_function (fuel : Nat) (tokens : Toks) : Except PErr (Val × Toks) :=
  match fuel with
  | 0 => .error .outOfFuel
  | f + 1 => do
    let t ← peekT tokens
    if kwIn t ["fn"] then do
      let (_, tokens) ← popT tokens
      let (lbracket, tokens) ← popT tokens
      if lbracket.type == TOKEN_LBRACKET then do
        let (args, tokens) ← parse_args f tokens
        let (rbracket, tokens) ← popT tokens
        if rbracket.type == TOKEN_RBRACKET then do
          let (block, tokens) ← parse_block f tokens
          .ok (Val.node NODE_FUNCTION (.list [.list args, block]), tokens)
        else .error (mkParseError rbracket)
      else .error (mkParseError lbracket)
    else .error (mkParseError t)

def parse_block (fuel : Nat) (tokens : Toks) : Except PErr (Val × Toks) :=
  match fuel with
  | 0 => .error .outOfFuel
  | f + 1 => do
    let t ← peekT tokens
    if t.type == TOKEN_LCURLYBRACKET then do
      let (_, tokens) ← popT tokens
      let (statements, tokens) ← parse_statements f tokens
      let (rcurlybracket, tokens) ← popT tokens
      if rcurlybracket.type == TOKEN_RCURLYBRACKET then
        .ok (Val.node NODE_BLOCK (.list statements), tokens)
      else .error (mkParseError rcurlybracket)
    else .error (mkParseError t)

def parse_dictionary (fuel : Nat) (tokens : Toks) : Except PErr (Val × Toks) :=
  match fuel with
  | 0 => .error .outOfFuel
  | f + 1 => do
    let t ← peekT tokens
    if t.type == TOKEN_LCURLYBRACKET then do
      let (_, tokens) ← popT tokens
      let (key_values, tokens) ← parse_key_values f tokens
      let (rcurlybracket, tokens) ← popT tokens
      if rcurlybracket.type == TOKEN_RCURLYBRACKET then
        .ok (Val.node NODE_DICTIONARY (.list key_values), tokens)
      else .error (mkParseError rcurlybracket)
    else .error (mkParseError t)

def parse_key_values (fuel : Nat) (tokens : Toks) : Except PErr (List Val × Toks) :=
  match fuel with
  | 0 => .error .outOfFuel
  | f + 1 => do
    let t ← peekT tokens
    if tyIn t FIRST_expression || kwIn t KW_expression then do
      let (key_value, tokens) ← parse_key_value f tokens
      let (later_key_values, tokens) ← parse_later_key_values f tokens
      .ok (key_value :: later_key_values, tokens)
    else if t.type == TOKEN_RCURLYBRACKET then
      .ok ([], tokens)
    else .error (mkParseError t)

def parse_later_key_values (fuel : Nat) (tokens : Toks) : Except PErr (List Val × Toks) :=
  match fuel with
  | 0 => .error .outOfFuel
  | f + 1 => do
    let t ← peekT tokens
    if t.type == TOKEN_COMMA then do
      let (_, tokens) ← popT tokens
      parse_key_values f tokens
    else if t.type == TOKEN_RCURLYBRACKET then
      .ok ([], tokens)
    else .error (mkParseError t)

def parse_key_value (fuel : Nat) (tokens : Toks) : Except PErr (Val × Toks) :=
  match fuel with
  | 0 => .error .outOfFuel
  | f + 1 => do
    let t ← peekT tokens
    if tyIn t FIRST_expression || kwIn t KW_expression then do
      let (key, tokens) ← parse_expression f tokens
      let (colon, tokens) ← popT tokens
      if colon.type == TOKEN_COLON then do
        let (value, tokens) ← parse_expression f tokens
        .ok (Val.node NODE_KEY_VALUE (.list [key, value]), tokens)
      else .error (mkParseError colon)
    else .error (mkParseError t)

def parse_boolean (fuel : Nat) (tokens : Toks) : Except PErr (Val × Toks) :=
  match fuel with
  | 0 => .error .outOfFuel
  | _ + 1 => do
    let t ← peekT tokens
    if kwIn t ["True", "False"] then do
      let (boolean, tokens) ← popT tokens
      .ok (Val.node NODE_BOOLEAN (.tok boolean), tokens)
    else .error (mkParseError t)

def parse_comparison_cont (fuel : Nat) (tokens : Toks) : Except PErr (Option Val × Toks) :=
  match fuel with
  | 0 => .error .outOfFuel
  | f + 1 => do
    let t ← peekT tokens
    if tyIn t [TOKEN_EQUAL, TOKEN_GREATERTHAN, TOKEN_LESSTHAN] then do
      let (op, tokens) ← popT tokens
      let (expression, tokens) ← parse_expression f tokens
      .ok (some (Val.node NODE_COMPARISON (.list [.tok op, expression])), tokens)
    else if tyIn t [TOKEN_ASSIGN, TOKEN_RBRACKET, TOKEN_RSTRAIGHTBRACKET,
        TOKEN_COMMA, TOKEN_SEMICOLON, TOKEN_COLON, TOKEN_RCURLYBRACKET] then
      .ok (none, tokens)
    else .error (mkParseError t)

end

/-- `Parser.parse`: append the end-of-input sentinel, run `parse_program`,
then test `tokens.pop()` (the LAST remaining token) against the sentinel. -/
def Parser.parse (toks : Toks) : Except PErr (Bool × List Val) := do
  let lastLine := ((toks.getLast?).map (fun t => t.line)).getD 0
  let tokens := toks ++ [⟨TOKEN_EOF, TOKEN_EOF, lastLine⟩]
  let (ast, rest) ← parse_program (1000 * (tokens.length + 1)) tokens
  match rest.getLast? with
  | none => .error .indexError
  | some t => if t.type == TOKEN_EOF then .ok (true, ast) else .ok (false, ast)

/-! ### Decimal rendering and parsing (Python `str`/`int`/`"%06d"`). -/

def digitVal (c : Char) : Nat := c.toNat - '0'.toNat

def parseNatL (l : List Char) : Nat := l.foldl (fun acc c => 10 * acc + digitVal c) 0

def strToNat (s : String) : Nat := parseNatL s.data

def natDigitsAux : Nat → Nat → List Char
  | 0, _ => []
  | fuel + 1, n =>
    if n < 10 then [Nat.digitChar n]
    else natDigitsAux fuel (n / 10) ++ [Nat.digitChar (n % 10)]

def natDigits (n : Nat) : List Char := natDigitsAux (n + 1) n

def natStr (n : Nat) : String := String.mk (natDigits n)

def intStr (i : Int) : String :=
  if i < 0 then ("-") ++ natStr i.natAbs else natStr i.natAbs

/-! ### ir.py -/

inductive Instr where
  | makeNumber (value : Int)
  | makeString (value : String)
  | makeBoolean (value : Bool)
  | makeFunction (params : List String) (body : List Instr)
  | externDecl (name : String) (paramLen : Int)
  | setName (name : String)
  | callFunction (name : String) (args : List Instr)
  | pushReference (name : String)
  | nop
deriving Repr

inductive IRErr where
  | notImplemented
  | assertionError
  | valueError
  | attributeError
  | indexError
  | outOfFuel
deriving Repr, DecidableEq

/-- `_remove_quotes`: assert the first and last characters are quotes, then
strip them (`s[1:-1]`). -/
def _remove_quotes (s : String) : Except IRErr String :=
  match s.data with
  | [] => .error .indexError
  | c :: rest =>
    let lastc := rest.getLast?.getD c
    if (c == '\'' || c == '"') && (lastc == '\'' || lastc == '"') then
      .ok (String.mk ((c :: rest).drop 1).dropLast)
    else .error .assertionError

/-- `arg.content == NODE_IDENTITY` for one element of the parameter list. -/
def argIsIdentity (arg : Val) : Bool := (contentOf arg).eqK NODE_IDENTITY

/-- `[... for name, _ in arg.content.content]`: each element of an identity
content is a `[token, keys]` pair; collect `name.value`. -/
def paramNames : List Val → Except IRErr (List String)
  | [] => .ok []
  | .list [nameV, _] :: rest =>
    match nameV with
    | .tok t => do
      let more ← paramNames rest
      .ok (t.value :: more)
    | _ => .error .attributeError
  | _ :: _ => .error .valueError

def collectParams : List Val → Except IRErr (List String)
  | [] => .ok []
  | arg :: rest =>
    match arg with
    | .node _ (.node _ (.list elems)) => do
      let ns ← paramNames elems
      let more ← collectParams rest
      .ok (ns ++ more)
    | _ => .error .valueError

def generate_identity (node : Val) : Except IRErr (List Instr) :=
  match node with
  | .node _ (.list (first :: _)) =>
    match first with
    | .list [.tok identity_token, .list keys_tokens] =>
      if keys_tokens.isEmpty then .ok [.pushReference identity_token.value]
      else .error .notImplemented
    | _ => .error .valueError
  | .node _ (.list []) => .error .indexError
  | _ => .error .valueError

def generate_string_literal (node : Val) : Except IRErr (List Instr) :=
  match node with
  | .node _ (.tok t) => (_remove_quotes t.value).map (fun s => [.makeString s])
  | _ => .error .attributeError

def generate_number_literal (node : Val) : Except IRErr (List Instr) :=
  match node with
  | .node _ (.tok t) => .ok [.makeNumber (Int.ofNat (strToNat t.value))]
  | _ => .error .attributeError

def generate_boolean (node : Val) : Except IRErr (List Instr) :=
  match node with
  | .node _ (.tok t) => .ok [.makeBoolean (t.value == "True")]
  | _ => .error .attributeError

def generate_extern_node (node : Val) : Except IRErr (List Instr) :=
  match node with
  | .node _ (.list [.tok name_token, .tok arg_len_token]) => do
    let name ← _remove_quotes name_token.value
    .ok [.externDecl name (Int.ofNat (strToNat arg_len_token.value))]
  | _ => .error .valueError

mutual

def generate_program (fuel : Nat) (root : List Val) : Except IRErr (List Instr) :=
  match fuel with
  | 0 => .error .outOfFuel
  | f + 1 =>
    match root with
    | [] => .ok []
    | node :: rest => do
      let statement_ir ← generate_statement f node
      let more ← generate_program f rest
      .ok (statement_ir ++ more)

def generate_statement (fuel : Nat) (node : Val) : Except IRErr (List Instr) :=
  match fuel with
  | 0 => .error .outOfFuel
  | f + 1 =>
    match node with
    | .node _ statement =>
      if statement.eqK NODE_ASSIGNMENT then generate_assignment f statement
      else if statement.eqK NODE_FUNCTION_CALL then generate_function_call f statement
      else generate_expression f statement
    | _ => .error .attributeError

def generate_assignment (fuel : Nat) (node : Val) : Except IRErr (List Instr) :=
  match fuel with
  | 0 => .error .outOfFuel
  | f + 1 =>
    match node with
    | .node _ (.list [identity_node, expression_node]) =>
      match identity_node with
      | .list [.tok identity_token, .list keys_tokens] => do
        let ir_expression ← generate_expression f expression_node
        if keys_tokens.isEmpty then
          .ok (ir_expression ++ [.setName identity_token.value])
        else .error .notImplemented
      | _ => .error .valueError
    | _ => .error .valueError

def generate_expression (fuel : Nat) (node : Val) : Except IRErr (List Instr) :=
  match fuel with
  | 0 => .error .outOfFuel
  | f + 1 =>
    if node.eqK NODE_IDENTITY then generate_identity node
    else if node.eqK NODE_STRING_LITERAL then generate_string_literal node
    else if node.eqK NODE_NUMBER_LITERAL then generate_number_literal node
    else if node.eqK NODE_BOOLEAN then generate_boolean node
    else if node.eqK NODE_FUNCTION then generate_function f node
    else if node.eqK NODE_FUNCTION_CALL then generate_function_call f node
    else if node.eqK NODE_EXTERN then generate_extern_node node
    else .error .notImplemented

def generate_function (fuel : Nat) (node : Val) : Except IRErr (List Instr) :=
  match fuel with
  | 0 => .error .outOfFuel
  | f + 1 =>
    match node with
    | .node _ (.list [.list args_node, block_node]) =>
      if args_node.all argIsIdentity then do
        let params ← collectParams args_node
        match block_node with
        | .node _ (.list stmts) => do
          let block ← generate_program f stmts
          .ok [.makeFunction params block]
        | _ => .error .attributeError
      else .error .assertionError
    | _ => .error .valueError

def generate_function_call (fuel : Nat) (node : Val) : Except IRErr (List Instr) :=
  match fuel with
  | 0 => .error .outOfFuel
  | f + 1 =>
    match node with
    | .node _ (.list [identifier_node, args_node]) =>
      match identifier_node with
      | .list [] => .error .indexError
      | .list (first :: _) =>
        match first with
        | .tok t =>
          match args_node with
          | .list args_list => do
            let args ← genArgs f args_list
            .ok [.callFunction t.value args]
          | _ => .error .valueError
        | _ => .error .attributeError
      | _ => .error .valueError
    | _ => .error .valueError

def genArgs (fuel : Nat) (args : List Val) : Except IRErr (List Instr) :=
  match fuel with
  | 0 => .error .outOfFuel
  | f + 1 =>
    match args with
    | [] => .ok []
    | a :: rest =>
      match a with
      | .node _ ac => do
        let ir ← generate_expression f ac
        let more ← genArgs f rest
        .ok (ir ++ more)
      | _ => .error .attributeError

end

/-! ### generator.py -/

inductive GenErr where
  | notImplemented
  | unknownVariable (name : String)
  | keyError
  | typeError
  | assertionError
  | attributeError
  | outOfFuel
deriving Repr, DecidableEq

/-- `Context`: name, local variable table, optional parent, simulated stack
position (starts at 0, moves by -8 per pushed value). -/
inductive Context where
  | mk (cname : Option String) (vars : List (String × Int))
      (parentCtx : Option Context) (pos : Int)
deriving Repr

def Context.cname : Context → Option String
  | .mk n _ _ _ => n

def Context.vars : Context → List (String × Int)
  | .mk _ vs _ _ => vs

def Context.parentCtx : Context → Option Context
  | .mk _ _ p _ => p

def Context.pos : Context → Int
  | .mk _ _ _ q => q

/-- `Context.variables`: a shallow merge with the variables of the parent.  The
source accesses `self.parent`, an attribute that does not exist (the field is
`self._parent`), so on any context that has a parent this raises
`AttributeError`. -/
def Context.variablesProp : Context → Except GenErr (List (String × Int))
  | .mk _ vs none _ => .ok vs
  | .mk _ _ (some _) _ => .error .attributeError

/-- `Context.child`: a fresh child context whose parent is `self`. -/
def Context.child (c : Context) : Context := .mk none [] (some c) 0

/-- `Context.add_variable`: bind `name` to the current stack position. -/
def Context.add_variable (c : Context) (name : String) : Context :=
  match c with
  | .mk n vs p q => .mk n (dset vs name q) p q

/-- `Context.move_stack_pointer`: `self._position -= 8`. -/
def Context.move_stack_pointer (c : Context) : Context :=
  match c with
  | .mk n vs p q => .mk n vs p (q - 8)

/-- `Context.get_position`: `position = self._variables.get(name)` followed by
`if not position: raise ValueError(...)`.  Only the LOCAL table is consulted,
and a stored position of `0` is falsy, hence treated as absent. -/
def Context.get_position (c : Context) (name : String) : Except GenErr Int :=
  match dget c.vars name with
  | none => .error (.unknownVariable name)
  | some position =>
    if position = 0 then .error (.unknownVariable name) else .ok position

abbrev AsmLine := String × String × String

structure Gen where
  glob : String
  externs : List String
  functions : List (String × List AsmLine)
  data : List (String × AsmLine)
  labels : List (String × Nat)
  ctx : Context
deriving Repr

/-- `GeneratorX86_64Linux.__init__`. -/
def freshGen : Gen :=
  { glob := "main"
    externs := []
    functions :=
      [ ("main", [("", "mov", "rbp, rsp")]),
        ("exit", [("", "mov", "rax, 60"), ("", "mov", "rdi, [rsp+8]"),
                  ("", "syscall", "")]) ]
    data := []
    labels := []
    ctx := .mk (some ("main")) [] none 0 }

/-- The Python label number format: decimal digits left-padded with zeros to a
minimum width of six (wider numbers keep all their digits). -/
def pad6 (n : Nat) : String :=
  String.mk (List.replicate (6 - (natDigits n).length) '0' ++ natDigits n)

/-- `_Generator._next_label`: per-prefix counter starting at 1. -/
def _next_label (labels : List (String × Nat)) (pfx : String) :
    String × List (String × Nat) :=
  let number := (dget labels pfx).getD 1
  (pfx ++ "_" ++ pad6 number, dset labels pfx (number + 1))

/-- `self._functions[self._context.name].append(line)`. -/
def Gen.emit (g : Gen) (line : AsmLine) : Gen :=
  let key := g.ctx.cname.getD ("")
  { g with functions :=
      g.functions.map (fun p => if p.1 == key then (p.1, p.2 ++ [line]) else p) }

/-- `GeneratorX86_64Linux.set_name`. -/
def set_name (g : Gen) (name : String) : Gen :=
  { g with ctx := g.ctx.add_variable name }

/-- `GeneratorX86_64Linux.make_number`. -/
def make_number (g : Gen) (value : Int) : Gen :=
  let g := g.emit ("", "push", intStr value)
  { g with ctx := g.ctx.move_stack_pointer }

/-- `GeneratorX86_64Linux.push_reference`. -/
def push_reference (g : Gen) (name : String) : Except GenErr Gen := do
  let position ← g.ctx.get_position name
  if position ≤ 0 then
    let g := g.emit ("", "mov", "rax, [rbp-" ++ intStr (-position) ++ "]")
    let g := g.emit ("", "push", "rax")
    .ok { g with ctx := g.ctx.move_stack_pointer }
  else .error .assertionError

/-- `GeneratorX86_64Linux.extern` (named `externDecl` here): declare a foreign
function thunk at most once, rejecting more than four parameters. -/
def externDecl (g : Gen) (name : String) (param_len : Int) : Except GenErr Gen :=
  if param_len > 4 then .error .notImplemented
  else if g.externs.contains name then .ok g
  else
    let r := _next_label g.labels ("f")
    let label := r.1
    let g := { g with labels := r.2, externs := g.externs ++ [name] }
    let g := g.emit ("", "mov", "rax, " ++ label)
    let g := g.emit ("", "push", "rax")
    let body :=
      [("", "push", "rbp")]
      ++ (if param_len > 0 then [("", "push", "rdi")] else [])
      ++ (if param_len > 1 then [("", "push", "rsi")] else [])
      ++ (if param_len > 2 then [("", "push", "rdx")] else [])
      ++ (if param_len > 3 then [("", "push", "rcx")] else [])
      ++ [("", "mov", "rbp, rsp")]
      ++ (if param_len > 0 then
            [("", "mov", "rdi, [rbp+" ++ intStr (16 + 8 * param_len) ++ "]")] else [])
      ++ (if param_len > 1 then
            [("", "mov", "rsi, [rbp+" ++ intStr (24 + 8 * param_len) ++ "]")] else [])
      ++ (if param_len > 2 then
            [("", "mov", "rdx, [rbp+" ++ intStr (32 + 8 * param_len) ++ "]")] else [])
      ++ (if param_len > 3 then
            [("", "mov", "rcx, [rbp+" ++ intStr (40 + 8 * param_len) ++ "]")] else [])
      ++ [("", "call", name), ("", "mov", "rsp, rbp")]
      ++ (if param_len > 3 then [("", "pop", "rcx")] else [])
      ++ (if param_len > 2 then [("", "pop", "rdx")] else [])
      ++ (if param_len > 1 then [("", "pop", "rsi")] else [])
      ++ (if param_len > 0 then [("", "pop", "rdi")] else [])
      ++ [("", "pop", "rbp"), ("", "ret", "")]
    let g := { g with functions := dset g.functions label body }
    .ok { g with ctx := g.ctx.move_stack_pointer }

mutual

/-- `_Generator.compile`: dispatch each instruction through the method table
(`KeyError` for opcodes missing from the table); `IR_NOP` is skipped.  For
`IR_PUSH_REFERENCE` the args tuple is a bare string, so `*args` splats its
characters: only one-character names reach `push_reference`, longer names
raise `TypeError`. -/
def compileL (fuel : Nat) (g : Gen) (ir : List Instr) : Except GenErr Gen :=
  match fuel with
  | 0 => .error .outOfFuel
  | f + 1 =>
    match ir with
    | [] => .ok g
    | .nop :: rest => compileL f g rest
    | i :: rest => do
      let g' ← compileI f g i
      compileL f g' rest

def compileI (fuel : Nat) (g : Gen) (i : Instr) : Except GenErr Gen :=
  match fuel with
  | 0 => .error .outOfFuel
  | f + 1 =>
    match i with
    | .makeNumber v => .ok (make_number g v)
    | .externDecl name p => externDecl g name p
    | .setName name => .ok (set_name g name)
    | .callFunction name args => call_function f g name args
    | .makeString v => make_string f g v
    | .pushReference name =>
      if name.length = 1 then push_reference g name else .error .typeError
    | .makeBoolean _ => .error .keyError
    | .makeFunction _ _ => .error .keyError
    | .nop => .ok g

/-- `GeneratorX86_64Linux.call_function`: compile the argument IR, look the
callee up, emit the indirect call, the stack cleanup and the result push. -/
def call_function (fuel : Nat) (g : Gen) (name : String) (args : List Instr) :
    Except GenErr Gen :=
  match fuel with
  | 0 => .error .outOfFuel
  | f + 1 => do
    let g ← compileL f g args
    let position ← g.ctx.get_position name
    let arg_len := args.length
    if position ≤ 0 then
      let g := g.emit ("", "call", "[rbp-" ++ intStr (-position) ++ "]")
      let g := g.emit ("", "add", "rsp, " ++ natStr (8 * arg_len))
      .ok (g.emit ("", "push", "rax"))
    else .error .assertionError

/-- `GeneratorX86_64Linux.make_string`. -/
def make_string (fuel : Nat) (g : Gen) (value : String) : Except GenErr Gen :=
  match fuel with
  | 0 => .error .outOfFuel
  | f + 1 => do
    let string_length := value.length + 1
    let g ← externDecl g ("malloc") 1
    let g := set_name g ("malloc")
    let g := make_number g (Int.ofNat string_length)
    let g ← call_function f g ("malloc") [.nop]
    let r1 := _next_label g.labels ("s")
    let string_label := r1.1
    let r2 := _next_label r1.2 ("l")
    let start_label := r2.1
    let r3 := _next_label r2.2 ("e")
    let end_label := r3.1
    let g := { g with labels := r3.2,
                      data := dset g.data string_label
                        ("", "db", "\"" ++ value ++ "\", 0") }
    let g := g.emit ("", "mov", "rdi, " ++ string_label)
    let g := g.emit ("", "mov", "rcx, " ++ natStr string_length)
    let g := g.emit ("", "xor", "rbx, rbx")
    let g := g.emit (start_label ++ ":", "mov", "bl, byte [rdi]")
    let g := g.emit ("", "mov", "byte [rax], bl")
    let g := g.emit ("", "inc", "rax")
    let g := g.emit ("", "inc", "rdi")
    let g := g.emit ("", "dec", "rcx")
    let g := g.emit ("", "cmp", "rcx, byte 0")
    let g := g.emit ("", "je", end_label)
    let g := g.emit ("", "jmp", start_label)
    let g := g.emit (end_label ++ ":", "", "")
    .ok { g with ctx := g.ctx.move_stack_pointer }

end

/-! ### Pipeline: lex, parse, lower, generate. -/

inductive PipeErr where
  | parseErr (e : PErr)
  | parseRejected
  | irErr (e : IRErr)
  | genErr (e : GenErr)
deriving Repr, DecidableEq

def lowerSource (src : String) : Except PipeErr (List Instr) :=
  match Parser.parse (tokenize src) with
  | .error e => .error (.parseErr e)
  | .ok (false, _) => .error .parseRejected
  | .ok (true, ast) =>
    match generate_program 1000 ast with
    | .error e => .error (.irErr e)
    | .ok ir => .ok ir

def pipeline (src : String) : Except PipeErr Gen :=
  match lowerSource src with
  | .error e => .error e
  | .ok ir =>
    match compileL 1000 freshGen ir with
    | .error e => .error (.genErr e)
    | .ok g => .ok g

/-! ### Arithmetic facts about the decimal rendering used by labels. -/

theorem digitVal_digitChar (n : Nat) (h : n < 10) :
    digitVal (Nat.digitChar n) = n := by
  interval_cases n <;> rfl

theorem parseNatL_append_singleton (a : List Char) (c : Char) :
    parseNatL (a ++ [c]) = 10 * parseNatL a + digitVal c := by
  simp [parseNatL, List.foldl_append]

theorem parseNatL_natDigitsAux :
    ∀ (fuel n : Nat), n < fuel → parseNatL (natDigitsAux fuel n) = n := by
  intro fuel
  induction fuel with
  | zero => intro n h; omega
  | succ f ih =>
    intro n h
    by_cases h10 : n < 10
    · simp [natDigitsAux, h10, parseNatL]
      have := digitVal_digitChar n h10
      simpa [parseNatL] using this
    · have hdiv : n / 10 < f := by
        have h1 : n / 10 < n := Nat.div_lt_self (by omega) (by omega)
        omega
      simp only [natDigitsAux, h10, if_false]
      rw [parseNatL_append_singleton, ih (n / 10) hdiv,
        digitVal_digitChar (n % 10) (Nat.mod_lt n (by omega))]
      omega

theorem parseNatL_natDigits (n : Nat) : parseNatL (natDigits n) = n :=
  parseNatL_natDigitsAux (n + 1) n (by omega)

theorem parseNatL_replicate_zero (k : Nat) (l : List Char) :
    parseNatL (List.replicate k '0' ++ l) = parseNatL l := by
  induction k with
  | zero => simp
  | succ m ih =>
    have : List.replicate (m + 1) '0' ++ l = '0' :: (List.replicate m '0' ++ l) := by
      simp [List.replicate_succ]
    rw [this]
    simpa [parseNatL] using ih

theorem parseNatL_pad6 (n : Nat) : parseNatL (pad6 n).data = n := by
  show parseNatL (List.replicate (6 - (natDigits n).length) '0' ++ natDigits n) = n
  rw [parseNatL_replicate_zero, parseNatL_natDigits]

theorem pad6_inj {a b : Nat} (h : pad6 a = pad6 b) : a = b := by
  have := congrArg (fun s => parseNatL s.data) h
  simpa [parseNatL_pad6] using this

theorem pad6_length_ge (n : Nat) : 6 ≤ (pad6 n).length := by
  show 6 ≤ (List.replicate (6 - (natDigits n).length) '0' ++ natDigits n).length
  simp [List.length_append, List.length_replicate]
  omega

theorem natDigitsAux_length_le :
    ∀ (fuel n k : Nat), n < fuel → n < 10 ^ k → 0 < k →
      (natDigitsAux fuel n).length ≤ k := by
  intro fuel
  induction fuel with
  | zero => intro n k h; omega
  | succ f ih =>
    intro n k h hk hk0
    by_cases h10 : n < 10
    · simp [natDigitsAux, h10]
      omega
    · have hk2 : 2 ≤ k := by
        by_contra hcon
        have : k = 1 := by omega
        subst this
        simp at hk
        omega
      have hdivf : n / 10 < f := by
        have h1 : n / 10 < n := Nat.div_lt_self (by omega) (by omega)
        omega
      have hdivk : n / 10 < 10 ^ (k - 1) := by
        have hmul : 10 ^ (k - 1) * 10 = 10 ^ k := by
          have : k - 1 + 1 = k := by omega
          calc 10 ^ (k - 1) * 10 = 10 ^ (k - 1 + 1) := by rw [pow_succ]
          _ = 10 ^ k := by rw [this]
        rw [Nat.div_lt_iff_lt_mul (by omega)]
        omega
      have := ih (n / 10) (k - 1) hdivf hdivk (by omega)
      simp only [natDigitsAux, h10, if_false, List.length_append,
        List.length_singleton]
      omega

theorem pad6_length_eq (n : Nat) (h : n < 1000000) : (pad6 n).length = 6 := by
  have hle : (natDigits n).length ≤ 6 :=
    natDigitsAux_length_le (n + 1) n 6 (by omega) (by norm_num; omega) (by omega)
  show (List.replicate (6 - (natDigits n).length) '0' ++ natDigits n).length = 6
  simp [List.length_append, List.length_replicate]
  omega

/-! ### The stream of labels issued for one prefix by `_next_label`. -/

def labelStream (pfx : String) : Nat → String × List (String × Nat)
  | 0 => _next_label [] pfx
  | n + 1 => _next_label (labelStream pfx n).2 pfx

theorem labelStream_counter (pfx : String) :
    ∀ n, dget (labelStream pfx n).2 pfx = some (n + 2)
  | 0 => by simp [labelStream, _next_label, dget, dget_dset]
  | n + 1 => by
    simp [labelStream, _next_label, labelStream_counter pfx n, dget_dset]

theorem labelStream_label (pfx : String) :
    ∀ n, (labelStream pfx n).1 = pfx ++ "_" ++ pad6 (n + 1)
  | 0 => by simp [labelStream, _next_label, dget]
  | n + 1 => by
    simp [labelStream, _next_label, labelStream_counter pfx n]

theorem string_data_append (a b : String) : (a ++ b).data = a.data ++ b.data := rfl

theorem labelStream_inj (pfx : String) (m n : Nat) (h : m ≠ n) :
    (labelStream pfx m).1 ≠ (labelStream pfx n).1 := by
  rw [labelStream_label, labelStream_label]
  intro heq
  have hdata := congrArg String.data heq
  rw [string_data_append, string_data_append] at hdata
  have hpad : (pad6 (m + 1)).data = (pad6 (n + 1)).data :=
    List.append_cancel_left hdata
  have h1 := parseNatL_pad6 (m + 1)
  have h2 := parseNatL_pad6 (n + 1)
  rw [hpad] at h1
  omega

/-! ### Claims -/

set_option maxRecDepth 100000

/-- Claim C1, counterexample: the token stream of `True;` is accepted by
`parse` (a boolean statement is in the grammar), lowers to `MAKE_BOOLEAN`,
yet the compile method of the generator raises (`MAKE_BOOLEAN` is absent from the
method dispatch table, a `KeyError`), so an accepted stream does NOT always
pass the IR lowerer and generator without error. -/
theorem C1_counterexample :
    (Parser.parse (tokenize ("True;"))).map (fun r => r.1) = .ok true ∧
    lowerSource ("True;") = .ok [.makeBoolean true] ∧
    pipeline ("True;") = .error (.genErr .keyError) :=
  ⟨rfl, rfl, rfl⟩

/-- Claim C1 (amended): acceptance by `parse` does not guarantee error-free
lowering and generation for every grammar statement form (booleans already
fail in the generator, see the counterexample); for programs of the
implemented fragment, such as the key-free assignment `x = 5;`, the whole
pipeline runs without error, producing exactly the push of the literal and
the binding of `x` to that stack slot. -/
theorem C1_amended_pipeline :
    (Parser.parse (tokenize ("x = 5;"))).map (fun r => r.1) = .ok true ∧
    lowerSource ("x = 5;") = .ok [.makeNumber 5, .setName ("x")] ∧
    pipeline ("x = 5;") =
      .ok { glob := "main"
            externs := []
            functions :=
              [ ("main", [("", "mov", "rbp, rsp"), ("", "push", "5")]),
                ("exit", [("", "mov", "rax, 60"), ("", "mov", "rdi, [rsp+8]"),
                          ("", "syscall", "")]) ]
            data := []
            labels := []
            ctx := .mk (some ("main")) [("x", -8)] none (-8) } :=
  ⟨rfl, rfl, rfl⟩

/-- Claim C2: an extern declaration is NOT reachable as a top-level statement:
`parse_statement` has no branch for the `extern` keyword although the
`statements` FIRST set admits it, so `extern("puts", 1);` raises a
SyntaxError at the `extern` keyword instead of being accepted.  The same
extern expression wrapped in parentheses is accepted and lowers to exactly
`EXTERN("puts", 1)`, witnessing that only the statement dispatch is missing. -/
theorem C2_extern_statement_rejected :
    Parser.parse (tokenize ("extern(\"puts\", 1);")) =
      .error (.syntaxError ⟨TOKEN_KEYWORD, "extern", 1⟩) ∧
    lowerSource ("(extern(\"puts\", 1));") = .ok [.externDecl ("puts") 1] :=
  ⟨rfl, rfl⟩

/-- Claim C3: `parse()` checks `tokens.pop()` — the LAST buffered token, which
is always the end-of-input sentinel it has just appended — rather than the
next unconsumed token.  On the buffer `x = 5; }` the descent stops before the
trailing `}` without error, leaving `}` and the sentinel unconsumed, and
`parse()` still returns true (and commits the node sequence), contradicting
the claim that it returns false whenever tokens remain unconsumed. -/
theorem C3_trailing_brace_parse_true :
    (Parser.parse (tokenize ("x = 5; \x7d"))).map (fun r => r.1) = .ok true ∧
    (parse_program 1000
        (tokenize ("x = 5; \x7d") ++ [⟨TOKEN_EOF, TOKEN_EOF, 1⟩])).map (fun r => r.2) =
      .ok [⟨TOKEN_RCURLYBRACKET, "\x7d", 1⟩, ⟨TOKEN_EOF, TOKEN_EOF, 1⟩] :=
  ⟨rfl, rfl⟩

/-- Claim C4, counterexample: `x` is bound at offset -8 in the parent context,
yet looking it up through a child context fails with the unknown-variable
error — `get_position` reads only the local table and never defers to the
enclosing context. -/
theorem C4_counterexample :
    Context.get_position
        (Context.child (Context.mk (some ("main")) [("x", -8)] none (-8))) ("x") =
      .error (.unknownVariable ("x")) := rfl

/-- Claim C4 (amended): in a context that has a parent, the position lookup
used by PUSH_REFERENCE / CALL_FUNCTION consults only the locally bound
variables, so any name bound only in an ancestor fails with the
unknown-variable condition (a fresh child has no local bindings, hence every
lookup in it fails); moreover the merged `variables` view itself raises
(`AttributeError`, the source reads the non-existent `self.parent`) on any
context that has a parent. -/
theorem C4_amended_child_lookup :
    (∀ (c : Context) (name : String),
        Context.get_position (Context.child c) name =
          .error (.unknownVariable name)) ∧
    (∀ c : Context, Context.variablesProp (Context.child c) =
        .error .attributeError) := by
  exact ⟨fun c name => rfl, fun c => rfl⟩

/-- The generator state produced by declaring the extern `puts` twice. -/
def externTwice : Except GenErr Gen :=
  (externDecl freshGen ("puts") 1).bind (fun g1 => externDecl g1 ("puts") 1)

/-- Claim C5, counterexample: the second identical extern declaration is a
complete no-op — it returns the unchanged state, so the `main` stream still
holds exactly ONE load-and-push of the thunk label (the claim says each
declaration call site appends one). -/
theorem C5_counterexample :
    externTwice = externDecl freshGen ("puts") 1 ∧
    externTwice.map (fun g => dget g.functions ("main")) =
      .ok (some [("", "mov", "rbp, rsp"), ("", "mov", "rax, f_000001"),
                 ("", "push", "rax")]) :=
  ⟨rfl, rfl⟩

/-- Claim C5 (amended): declaring the same extern symbol twice emits the thunk
body exactly once, and the second declaration is a complete no-op (state
unchanged: no second thunk body, no label consumed, and no load-and-push
either); only the first declaration appends the load-and-push of the thunk
label into the stream of the current function. -/
theorem C5_amended_second_declaration_noop :
    (∀ (g : Gen) (name : String) (p : Int),
        g.externs.contains name = true → p ≤ 4 → externDecl g name p = .ok g) ∧
    (externDecl freshGen ("puts") 1).map
        (fun g => (dget g.functions ("main"), dget g.labels ("f"),
                   (dget g.functions ("f_000001")).isSome)) =
      .ok (some [("", "mov", "rbp, rsp"), ("", "mov", "rax, f_000001"),
                 ("", "push", "rax")], some 2, true) := by
  constructor
  · intro g name p hmem hp
    unfold externDecl
    rw [if_neg (by omega), hmem]
    simp
  · rfl

def gWithPuts : Gen := { freshGen with externs := ["puts"] }

/-- Claim C5, witness: a concrete state that already declares `puts`. -/
theorem C5_witness :
    gWithPuts.externs.contains ("puts") = true ∧ (1 : Int) ≤ 4 ∧
    externDecl gWithPuts ("puts") 1 = .ok gWithPuts :=
  ⟨rfl, by decide,
   C5_amended_second_declaration_noop.1 gWithPuts ("puts") 1 rfl (by decide)⟩

/-- Claim C6: the unclosed block `fn(x){ return x;` raises the distinguished
UnexpectedEndOfInput condition (not a SyntaxError), and the parse-error
constructor yields UnexpectedEndOfInput exactly when the offending token is
the end-of-input sentinel. -/
theorem C6_unexpected_eof :
    Parser.parse (tokenize ("fn(x)\x7b return x;")) = .error .unexpectedEOF ∧
    (∀ t : Token, mkParseError t = .unexpectedEOF ↔ t.type = TOKEN_EOF) := by
  refine ⟨by rfl, ?_⟩
  intro t
  by_cases h : t.type = TOKEN_EOF
  · simp [mkParseError, h]
  · simp [mkParseError, h]

/-- Claim C7: lowering an assignment whose target identity has no index keys
produces the IR of the right-hand expression followed immediately by
SET_NAME(target name); in particular `x = 5;` lowers to
`[MAKE_NUMBER(5), SET_NAME("x")]`. -/
theorem C7_assignment_lowering :
    (∀ (f : Nat) (tok : Token) (expr : Val),
        generate_assignment (f + 1)
            (Val.node NODE_ASSIGNMENT (.list [.list [.tok tok, .list []], expr])) =
          (generate_expression f expr).map (fun ir => ir ++ [.setName tok.value])) ∧
    lowerSource ("x = 5;") = .ok [.makeNumber 5, .setName ("x")] := by
  constructor
  · intro f tok expr
    cases h : generate_expression f expr with
    | ok v => simp [generate_assignment, h, Except.map, Bind.bind, Except.bind]
    | error e => simp [generate_assignment, h, Except.map, Bind.bind, Except.bind]
  · rfl

/-- Claim C8: an extern declaration with more than four parameters raises the
parameter-budget (not-implemented) error (the check precedes every state
change, so nothing is mutated), while a four-parameter declaration succeeds
and reads its arguments at the fixed offsets rbp+48, rbp+56, rbp+64, rbp+72
computed by the 16-byte frame-linkage formula. -/
theorem C8_extern_param_budget :
    (∀ (g : Gen) (name : String) (p : Int), p > 4 →
        externDecl g name p = .error .notImplemented) ∧
    (externDecl freshGen ("puts") 4).map (fun g => dget g.functions ("f_000001")) =
      .ok (some
        [("", "push", "rbp"), ("", "push", "rdi"), ("", "push", "rsi"),
         ("", "push", "rdx"), ("", "push", "rcx"), ("", "mov", "rbp, rsp"),
         ("", "mov", "rdi, [rbp+48]"), ("", "mov", "rsi, [rbp+56]"),
         ("", "mov", "rdx, [rbp+64]"), ("", "mov", "rcx, [rbp+72]"),
         ("", "call", "puts"), ("", "mov", "rsp, rbp"), ("", "pop", "rcx"),
         ("", "pop", "rdx"), ("", "pop", "rsi"), ("", "pop", "rdi"),
         ("", "pop", "rbp"), ("", "ret", "")]) := by
  constructor
  · intro g name p hp
    unfold externDecl
    rw [if_pos hp]
  · rfl

/-- Claim C8, witness: five parameters are rejected. -/
theorem C8_witness :
    (5 : Int) > 4 ∧ externDecl freshGen ("somefn") 5 = .error .notImplemented :=
  ⟨by decide, C8_extern_param_budget.1 freshGen ("somefn") 5 (by decide)⟩

theorem string_length_append (a b : String) :
    (a ++ b).length = a.length + b.length := by
  show (a ++ b).data.length = a.data.length + b.data.length
  rw [string_data_append, List.length_append]

/-- Claim C9, counterexample: the 1,000,000th label issued for prefix `f` is
`f_1000000`, whose numeric part has seven digits — the Python format pads to
a MINIMUM of six digits, so not every label has the claimed
`<prefix>_<6-digit zero-padded number>` form. -/
theorem C9_counterexample :
    (labelStream ("f") 999999).1 = "f_1000000" ∧
    ¬ ∃ d : String, (labelStream ("f") 999999).1 = "f" ++ "_" ++ d ∧
        d.length = 6 := by
  have h1 : (labelStream ("f") 999999).1 = "f_1000000" := by
    rw [labelStream_label]
    rfl
  refine ⟨h1, ?_⟩
  rintro ⟨d, hl, hd⟩
  rw [h1] at hl
  have hlen := congrArg String.length hl
  rw [string_length_append, string_length_append, hd] at hlen
  exact absurd hlen (by decide)

/-- The generator state after compiling two string literals in one session. -/
def twoStrings : Except GenErr Gen :=
  (make_string 1000 freshGen ("a")).bind (fun g => make_string 1000 g ("b"))

/-- Claim C9 (amended): every label is `<prefix>_<counter zero-padded to AT
LEAST six digits>` (exactly six while the counter stays below 1,000,000);
the per-prefix counter starts at 1 and increases by exactly one per issued
label, so labels are strictly increasing and never reused; generating two
string literals in one session yields the two distinct data labels
`s_000001`, `s_000002` and the two distinct loop label pairs
`l_000001`/`e_000001`, `l_000002`/`e_000002`. -/
theorem C9_amended_labels :
    (∀ (pfx : String) (n : Nat),
        (labelStream pfx n).1 = pfx ++ "_" ++ pad6 (n + 1)) ∧
    (∀ n : Nat, 6 ≤ (pad6 n).length) ∧
    (∀ n : Nat, n < 1000000 → (pad6 n).length = 6) ∧
    (∀ (pfx : String) (m n : Nat), m ≠ n →
        (labelStream pfx m).1 ≠ (labelStream pfx n).1) ∧
    (∀ (pfx : String) (n : Nat),
        dget (labelStream pfx n).2 pfx = some (n + 2)) ∧
    twoStrings.map (fun g => g.data.map (fun p => p.1)) =
      .ok ["s_000001", "s_000002"] ∧
    ["s_000001", "s_000002"].Nodup ∧
    twoStrings.map (fun g =>
        ((dget g.functions ("main")).getD []).filterMap
          (fun l => if l.1 != "" then some l.1 else none)) =
      .ok ["l_000001:", "e_000001:", "l_000002:", "e_000002:"] ∧
    ["l_000001:", "e_000001:", "l_000002:", "e_000002:"].Nodup := by
  exact ⟨labelStream_label, pad6_length_ge, pad6_length_eq, labelStream_inj,
    labelStream_counter, rfl, by decide, rfl, by decide⟩

/-- Claim C9, witness: distinct indices give distinct labels, and a counter
below 1,000,000 renders with exactly six digits. -/
theorem C9_witness :
    (0 : Nat) ≠ 1 ∧ (labelStream ("s") 0).1 ≠ (labelStream ("s") 1).1 ∧
    (5 : Nat) < 1000000 ∧ (pad6 5).length = 6 :=
  ⟨by decide, C9_amended_labels.2.2.2.1 ("s") 0 1 (by decide), by decide,
   C9_amended_labels.2.2.1 5 (by decide)⟩

/-- Claim C10: if SET_NAME binds a name while the simulated stack
offset is exactly 0, a later PUSH_REFERENCE or CALL_FUNCTION lookup of that
name fails with the unknown-variable error despite the binding, because
`get_position` treats the stored offset 0 the same as an absent binding
(Python falsiness of `0`). -/
theorem C10_zero_offset_binding_lookup_fails :
    ∀ (g : Gen) (name : String) (fuel : Nat), g.ctx.pos = 0 →
      push_reference (set_name g name) name = .error (.unknownVariable name) ∧
      call_function (fuel + 2) (set_name g name) name [] =
        .error (.unknownVariable name) := by
  intro g name fuel h
  have hget : (set_name g name).ctx.get_position name =
      .error (.unknownVariable name) := by
    rcases hc : g.ctx with ⟨n, vs, p, q⟩
    have hq : q = 0 := by
      rw [hc] at h
      simpa [Context.pos] using h
    subst hq
    simp [set_name, Context.add_variable, Context.get_position, Context.vars,
      hc, dget_dset]
  refine ⟨?_, ?_⟩
  · simp [push_reference, hget, Bind.bind, Except.bind]
  · simp [call_function, compileL, hget, Bind.bind, Except.bind]

/-- Claim C10, witness: the fresh generator starts at offset 0, so binding and
immediately referencing `x` fails with the unknown-variable error. -/
theorem C10_witness :
    freshGen.ctx.pos = 0 ∧
    push_reference (set_name freshGen ("x")) ("x") = .error (.unknownVariable ("x")) ∧
    call_function 2 (set_name freshGen ("x")) ("x") [] =
      .error (.unknownVariable ("x")) :=
  ⟨rfl, (C10_zero_offset_binding_lookup_fails freshGen ("x") 0 rfl).1,
   (C10_zero_offset_binding_lookup_fails freshGen ("x") 0 rfl).2⟩
